import Mathlib

/-!
# Verification development for the Gotham-Enterprise media-verification core

Shallow embedding of the credit-accounting, verdict-mapping, payment-settlement
and response-cache logic of the repository's API routes:

* `src/app/api/scans/route.ts` — scans GET (TTL cache) and POST (bulk/single
  verification, credit pre-check and debit, cache invalidation);
* the single-result route (GET by scanId with per-user cache, DELETE);
* `src/app/api/users/trial/route.ts` — trial credit grant;
* the paystack verify POST handler in `src/app/pricing-billing/page.tsx` —
  idempotent payment settlement;
* the mongoose `userSchema` (integer credit field, plan enumeration).

External collaborators (the detector provider, the payment provider, the
document store, the identity provider) enter as explicit parameters: detector
responses and provider verify payloads are inputs, the store is a function
from keys to records, the authenticated caller id is an argument.

JavaScript numerics are modelled with `ℚ` for provider scores (floats in
[0,1]) and `ℤ` for credit balances and money amounts; `Math.round` is
`⌊x + 1/2⌋`, which agrees with JavaScript's round-half-toward-+∞ on all
rationals.
-/

namespace Gotham

/-- The three persisted classifications (`"AUTHENTIC" | "SUSPICIOUS" | "DEEPFAKE"`
in the route's `mappedStatus` local). -/
inductive ScanStatus where
  | AUTHENTIC
  | SUSPICIOUS
  | DEEPFAKE
deriving DecidableEq, Repr

/-- One per-model sub-result of the detector response (`RDModelResult` in
`src/lib/realityDefender`, as consumed by the routes: `name`, `status`,
`score`). -/
structure RDModelResult where
  name : String
  status : String
  score : ℚ
deriving DecidableEq, Repr

/-- The normalized detector response as the routes consume it: `result.score`
(a number or absent — `typeof result.score === "number"` guards every read),
`result.status`, and `result.models` (an array or absent —
`Array.isArray(result.models)` guards the reads). -/
structure RDResult where
  score : Option ℚ
  status : String
  models : Option (List RDModelResult)
deriving DecidableEq, Repr

/-- `const overallScore = typeof result.score === "number" ? result.score : 0;`
(scans route, lines 118 and 184). -/
def overallScore (r : RDResult) : ℚ :=
  match r.score with
  | some s => s
  | none => 0

/-- JavaScript's `Math.round`: round half toward +∞, i.e. `⌊x + 1/2⌋`. -/
def mathRound (x : ℚ) : ℤ :=
  ⌊x + 1 / 2⌋

/-- `const confidenceScore = Math.round(overallScore * 100);` (scans route,
lines 119 and 185). -/
def confidenceScore (s : ℚ) : ℤ :=
  mathRound (s * 100)

/-- The inlined verdict mapping of the scans route (identical at lines
121–124, bulk path, and 186–188, single path):

```
let mappedStatus = "SUSPICIOUS";
if (result.status === "AUTHENTIC") mappedStatus = "AUTHENTIC";
else if (result.status === "MANIPULATED")
  mappedStatus = overallScore >= 0.5 ? "DEEPFAKE" : "SUSPICIOUS";
```
-/
def mappedStatus (status : String) (score : ℚ) : ScanStatus :=
  if status = "AUTHENTIC" then .AUTHENTIC
  else if status = "MANIPULATED" then
    (if score ≥ 1 / 2 then .DEEPFAKE else .SUSPICIOUS)
  else .SUSPICIOUS

/-- Modelled from the spec (§4.3, the claim's priority table), for comparison
with the route's inlined `mappedStatus`:
1. authentic → AUTHENTIC; 2. manipulated ∧ score ≥ 0.5 → DEEPFAKE;
3. manipulated ∧ score < 0.5 → SUSPICIOUS; 4. otherwise SUSPICIOUS. -/
def specVerdict (status : String) (score : ℚ) : ScanStatus :=
  if status = "AUTHENTIC" then .AUTHENTIC
  else if status = "MANIPULATED" ∧ score ≥ 1 / 2 then .DEEPFAKE
  else if status = "MANIPULATED" ∧ score < 1 / 2 then .SUSPICIOUS
  else .SUSPICIOUS

/-! ## Data model -/

/-- The mongoose `userSchema` (unnamed model file): `clerkId` (unique),
`email` (unique), `credits : Number` (integer balance, default 5), `plan`
enumeration. `fullName`/`imageUrl`/timestamps carry no claim-relevant
behaviour and are omitted. -/
structure User where
  clerkId : String
  email : String
  credits : ℤ
  plan : String
deriving DecidableEq, Repr

/-- One media descriptor of the bulk request (`BulkMedia` as the scans route
consumes it: `fileName`, `fileType`, `url`); the inline `fileBuffer` bytes are
never inspected by the route and are omitted. -/
structure BulkMedia where
  fileName : String
  fileType : String
  url : Option String
deriving DecidableEq, Repr

/-- One element of the `verifyMediaBulk` return value as consumed by the save
loop: the media descriptor plus the detector's result, `none` when the
provider produced no usable result for that item. -/
structure BulkOutcome where
  media : BulkMedia
  result : Option RDResult
deriving DecidableEq, Repr

/-- A persisted `VerificationResult` document, with the fields the routes
write and read. The `description` JSON blob `JSON.stringify({ rd: result })`
is modelled as `rdPayload`, the raw result it serializes. The `createdAt`
timestamp (used only for result ordering in the list query) is not modelled. -/
structure VerificationRecord where
  userId : String
  scanId : String
  fileName : String
  fileType : String
  status : ScanStatus
  confidenceScore : ℤ
  modelsUsed : List String
  imageUrl : Option String
  rdPayload : RDResult
  features : List String
deriving DecidableEq, Repr

/-- `Array.isArray(result.models) ? result.models.map(m => m.name) : []`
(scans route, lines 126–128 and 190). -/
def modelsUsed (r : RDResult) : List String :=
  match r.models with
  | some ms => ms.map (fun m => m.name)
  | none => []

/-- `result.models?.map(m => ` `${m.name}:${m.status}:${Math.round(m.score * 100)}` `) || []`
(scans route, lines 140–144 and 204). -/
def features (r : RDResult) : List String :=
  match r.models with
  | some ms =>
    ms.map (fun m => m.name ++ ":" ++ m.status ++ ":" ++ toString (mathRound (m.score * 100)))
  | none => []

/-- The `new VerificationResult({...})` construction of the bulk save loop
(scans route, lines 130–145). `freshId` stands for the nondeterministic
`` `scan-${Date.now()}-${Math.random()}` `` fallback id drawn when the file
name is empty; the single-file path (lines 193–205) builds the same record
with its id/fileName fallbacks collapsed into the supplied descriptor. -/
def buildRecord (userId freshId : String) (media : BulkMedia) (r : RDResult) :
    VerificationRecord :=
  { userId := userId
    scanId := if media.fileName = "" then freshId else media.fileName
    fileName := if media.fileName = "" then "unknown" else media.fileName
    fileType := if media.fileType = "" then "image" else media.fileType
    status := mappedStatus r.status (overallScore r)
    confidenceScore := Gotham.confidenceScore (overallScore r)
    modelsUsed := Gotham.modelsUsed r
    imageUrl := media.url
    rdPayload := r
    features := Gotham.features r }

/-! ## Stores and caches -/

/-- A document store keyed by a unique string key (users by `clerkId`,
payments by `reference`), as a partial map. -/
def Store (α : Type) : Type :=
  String → Option α

/-- Insert-or-replace at a key (mongoose `save()` / `create()` against a
unique index). -/
def storeSet {α : Type} (store : Store α) (k : String) (v : α) : Store α :=
  fun k1 => if k1 = k then some v else store k1

/-- One cache slot: `{ data, timestamp }`. -/
structure CacheEntry (α : Type) where
  data : α
  timestamp : ℤ
deriving DecidableEq, Repr

/-- A module-level `Map<string, { data, timestamp }>`. -/
def Cache (α : Type) : Type :=
  String → Option (CacheEntry α)

/-- `cache.set(key, { data, timestamp: Date.now() })`. -/
def cacheSet {α : Type} (cache : Cache α) (k : String) (e : CacheEntry α) : Cache α :=
  fun k1 => if k1 = k then some e else cache k1

/-- `cache.delete(key)`. -/
def cacheDelete {α : Type} (cache : Cache α) (k : String) : Cache α :=
  fun k1 => if k1 = k then none else cache k1

/-- `const SCANS_CACHE_TTL = 2 * 60 * 1000;` (scans route, line 18). -/
def SCANS_CACHE_TTL : ℤ := 2 * 60 * 1000

/-- `const CACHE_TTL = 5 * 60 * 1000;` (single-result route, line 21). -/
def RESULT_CACHE_TTL : ℤ := 5 * 60 * 1000

/-! ## Scans route: GET (cached list) and POST (bulk/single verification) -/

/-- The list query of the scans GET:
`VerificationResult.find({ userId }).sort({ createdAt: -1 }).limit(100)`;
the sort key `createdAt` is not modelled, so the query is the filtered list
truncated to 100, in store order. -/
def queryScans (db : List VerificationRecord) (userId : String) :
    List VerificationRecord :=
  (db.filter (fun r => r.userId == userId)).take 100

/-- The scans GET from the point after authentication (lines 35–62): serve
the cache entry under `scans:${userId}` when its age is below the TTL,
otherwise run the query and repopulate the cache. `now` is `Date.now()`,
`db` the persistent store contents. Returns the updated cache and the
response payload. -/
def scansGet (cache : Cache (List VerificationRecord)) (userId : String)
    (now : ℤ) (db : List VerificationRecord) :
    Cache (List VerificationRecord) × List VerificationRecord :=
  match cache ("scans:" ++ userId) with
  | some cached =>
    if now - cached.timestamp < SCANS_CACHE_TTL then (cache, cached.data)
    else
      let scans := queryScans db userId
      (cacheSet cache ("scans:" ++ userId) ⟨scans, now⟩, scans)
  | none =>
    let scans := queryScans db userId
    (cacheSet cache ("scans:" ++ userId) ⟨scans, now⟩, scans)

/-- The bulk save loop (scans route, lines 111–150): items whose `result` is
absent are skipped (`if (!result) continue;`); each item with a result is
persisted and adds 1 to `creditCost`. `fresh i` is the fallback id drawn at
loop step `i`. Returns `(savedResults, creditCost)` in input order. -/
def saveLoopAux (userId : String) (fresh : ℕ → String) (i : ℕ) :
    List BulkOutcome → List VerificationRecord × ℕ
  | [] => ([], 0)
  | o :: rest =>
    match o.result with
    | none => saveLoopAux userId fresh (i + 1) rest
    | some r =>
      let p := saveLoopAux userId fresh (i + 1) rest
      (buildRecord userId (fresh i) o.media r :: p.1, p.2 + 1)

/-- The bulk save loop started at step 0. -/
def saveLoop (userId : String) (fresh : ℕ → String)
    (outcomes : List BulkOutcome) : List VerificationRecord × ℕ :=
  saveLoopAux userId fresh 0 outcomes

/-- The scans POST request body after the detector ran: either the bulk
branch (`Array.isArray(body.files) && body.files.length > 0`) with the
`verifyMediaBulk` outcomes, or the single-file branch with the `verifyMedia`
result (`none` models `rdResult == null`, the failed-retrieval case). -/
inductive ScanRequest where
  | bulk (outcomes : List BulkOutcome)
  | single (media : BulkMedia) (rdResult : Option RDResult)
deriving DecidableEq, Repr

/-- Error responses of the scans POST. -/
inductive ScanError where
  | InsufficientCredits
  | FailedRetrieve
deriving DecidableEq, Repr

/-- The scans POST from the point after authentication (lines 82–213):
look up the user by `clerkId`; reject with 402 when absent or
`user.credits <= 0`; delete the user's list-cache entry; then either run the
bulk save loop and debit `creditCost`, or persist the single result and debit
1 (no debit when the single result is absent). Returns the updated user
store, the updated cache, and the response. The detector calls are the
`req` payload; persistence of the built records into the result store is the
returned list. -/
def scansPost (users : Store User) (cache : Cache (List VerificationRecord))
    (userId : String) (fresh : ℕ → String) (req : ScanRequest) :
    Store User × Cache (List VerificationRecord) ×
      Except ScanError (User × List VerificationRecord) :=
  match users userId with
  | none => (users, cache, .error .InsufficientCredits)
  | some u =>
    if u.credits ≤ 0 then (users, cache, .error .InsufficientCredits)
    else
      let cache1 := cacheDelete cache ("scans:" ++ userId)
      match req with
      | .bulk outcomes =>
        let p := saveLoop userId fresh outcomes
        let u1 := { u with credits := u.credits - p.2 }
        (storeSet users userId u1, cache1, .ok (u1, p.1))
      | .single media rdResult =>
        match rdResult with
        | none => (users, cache1, .error .FailedRetrieve)
        | some r =>
          let u1 := { u with credits := u.credits - 1 }
          (storeSet users userId u1, cache1,
            .ok (u1, [buildRecord userId (fresh 0) media r]))

/-! ## Single-result route: GET by scanId and DELETE -/

/-- 404 response of the single-result route (`Result not found`). -/
inductive ResultError where
  | NotFound
deriving DecidableEq, Repr

/-- `VerificationResult.findOne({ scanId: id, userId })` (single-result
route, lines 58–66). The `.select(...)` field projection is not modelled:
the whole record is returned. -/
def resultsFindOne (db : List VerificationRecord) (scanId userId : String) :
    Option VerificationRecord :=
  db.find? (fun r => r.scanId == scanId && r.userId == userId)

/-- The single-result GET from the point after authentication (lines 43–82):
serve the cache entry under `${userId}:${id}` when its age is below the TTL,
otherwise `findOne({ scanId: id, userId })`, 404 when absent, cache and
return the record otherwise. -/
def resultsGet (cache : Cache VerificationRecord) (userId id : String)
    (now : ℤ) (db : List VerificationRecord) :
    Cache VerificationRecord × Except ResultError VerificationRecord :=
  match cache (userId ++ ":" ++ id) with
  | some cached =>
    if now - cached.timestamp < RESULT_CACHE_TTL then (cache, .ok cached.data)
    else
      match resultsFindOne db id userId with
      | none => (cache, .error .NotFound)
      | some r => (cacheSet cache (userId ++ ":" ++ id) ⟨r, now⟩, .ok r)
  | none =>
    match resultsFindOne db id userId with
    | none => (cache, .error .NotFound)
    | some r => (cacheSet cache (userId ++ ":" ++ id) ⟨r, now⟩, .ok r)

/-- Mongoose `findOneAndDelete(filter)` over a list-modelled collection:
remove the first record matching the filter, return it with the remaining
collection. -/
def findOneAndDelete (p : VerificationRecord → Bool) :
    List VerificationRecord → Option VerificationRecord × List VerificationRecord
  | [] => (none, [])
  | r :: rest =>
    if p r then (some r, rest)
    else
      let q := findOneAndDelete p rest
      (q.1, r :: q.2)

/-- The single-result DELETE from the point after authentication (lines
105–129): `findOneAndDelete({ scanId: id, userId })`, 404 when nothing
matched, otherwise drop the cache entry and report success. Returns the
updated cache, the updated store, and the response. -/
def resultsDelete (cache : Cache VerificationRecord) (userId id : String)
    (db : List VerificationRecord) :
    Cache VerificationRecord × List VerificationRecord × Except ResultError Unit :=
  match findOneAndDelete (fun r => r.scanId == id && r.userId == userId) db with
  | (none, db2) => (cache, db2, .error .NotFound)
  | (some _, db2) => (cacheDelete cache (userId ++ ":" ++ id), db2, .ok ())

/-! ## Trial route: POST /api/users/trial -/

/-- 404 response of the trial route (`User not found`). -/
inductive TrialError where
  | UserNotFound
deriving DecidableEq, Repr

/-- `const TRIAL_CREDITS = 5;` (trial route, line 24). -/
def TRIAL_CREDITS : ℤ := 5

/-- The trial POST from the point after authentication (trial route, lines
17–33): look up the user; 404 when absent; otherwise
`if (!user.credits || user.credits < TRIAL_CREDITS) user.credits = TRIAL_CREDITS;`
(on an integer balance, `!user.credits` holds exactly for 0), set
`plan = "trial"`, save, and respond with the resulting credits. -/
def trialPost (users : Store User) (userId : String) :
    Store User × Except TrialError ℤ :=
  match users userId with
  | none => (users, .error .UserNotFound)
  | some u =>
    let credits1 :=
      if u.credits = 0 ∨ u.credits < TRIAL_CREDITS then TRIAL_CREDITS else u.credits
    let u1 := { u with credits := credits1, plan := "trial" }
    (storeSet users userId u1, .ok u1.credits)

/-! ## Payment settlement: paystack verify POST -/

/-- The `metadata` object echoed by the provider's verify response; both
fields are read through optional chaining in the handler. -/
structure PaystackMetadata where
  credits : Option ℤ
  clerkId : Option String
deriving DecidableEq, Repr

/-- `data.data` of a successful provider verify call: settlement `status`,
the `reference`, `amount`, `currency`, and the echoed `metadata`. -/
structure PaystackPayment where
  status : String
  reference : String
  amount : Option ℤ
  currency : Option String
  metadata : Option PaystackMetadata
deriving DecidableEq, Repr

/-- `Number(payment.metadata?.credits || 0)` (verify handler, line 941). -/
def metadataCredits (p : PaystackPayment) : ℤ :=
  (p.metadata.bind (fun m => m.credits)).getD 0

/-- `payment.metadata?.clerkId` (verify handler, line 942). -/
def metadataClerkId (p : PaystackPayment) : Option String :=
  p.metadata.bind (fun m => m.clerkId)

/-- `metadataClerkId && metadataClerkId !== userId` (verify handler,
line 958). -/
def metadataMismatch (p : PaystackPayment) (userId : String) : Bool :=
  match metadataClerkId p with
  | some m => m != userId
  | none => false

/-- A persisted `Payment` document, with the fields the verify handler
creates and updates (lines 973–992): `reference` (unique key), `clerkId`,
`email`, `amount`, `currency`, `credits`, provider `status`, `processed`
flag, and the `raw` provider payload. -/
structure PaymentRecord where
  reference : String
  clerkId : String
  email : String
  amount : ℤ
  currency : String
  credits : ℤ
  status : String
  processed : Bool
  raw : Option PaystackPayment
deriving DecidableEq, Repr

/-- The persistent state the verify handler touches: users by `clerkId`,
payments by `reference`. -/
structure SettleState where
  users : Store User
  payments : Store PaymentRecord

/-- Responses of the verify handler (after authentication and a provider
verify call that returned a payload). -/
inductive VerifyOutcome where
  | settled (credits : ℤ)
  | alreadyProcessed (credits : ℤ)
  | paymentNotSuccessful
  | noCreditsInMetadata
  | metadataMismatchError
  | userNotFound
deriving DecidableEq, Repr

/-- The payment record written by the settlement tail: update the existing
document (lines 973–979) or create a fresh one (lines 981–991),
`processed: true` either way. -/
def settledRecord (userId : String) (payment : PaystackPayment)
    (existing : Option PaymentRecord) (u : User) : PaymentRecord :=
  match existing with
  | some e =>
    { e with
      status := payment.status
      processed := true
      credits := metadataCredits payment
      raw := some payment
      clerkId := (metadataClerkId payment).getD userId }
  | none =>
    { reference := payment.reference
      clerkId := (metadataClerkId payment).getD userId
      email := u.email
      amount := payment.amount.getD 0
      currency := payment.currency.getD "USD"
      credits := metadataCredits payment
      status := payment.status
      processed := true
      raw := some payment }

/-- The settlement tail of the verify handler (lines 957–994), reached when
no processed record short-circuited: reject on metadata mismatch; look up the
user (404 when absent); apply `user.credits = (user.credits || 0) +
creditsToAdd` (the `|| 0` is the identity on an integer balance); then write
the payment record. `settled` carries the response `credits: user.credits`,
the new balance. -/
def settleCore (st : SettleState) (userId : String) (payment : PaystackPayment)
    (existing : Option PaymentRecord) : SettleState × VerifyOutcome :=
  if metadataMismatch payment userId then (st, .metadataMismatchError)
  else
    match st.users userId with
    | none => (st, .userNotFound)
    | some u =>
      let u1 := { u with credits := u.credits + metadataCredits payment }
      ({ users := storeSet st.users userId u1
         payments := storeSet st.payments payment.reference
           (settledRecord userId payment existing u) },
        .settled u1.credits)

/-- The verify handler from the point where the provider verify call has
returned `payment = data.data` (lines 934–994): reject a non-`success`
status; reject absent/non-positive metadata credits; look up the payment by
reference and short-circuit when it exists with `processed` set
(`credits: existing.credits`, "Already processed"); otherwise run the
settlement tail. -/
def verifyPost (st : SettleState) (userId : String) (payment : PaystackPayment) :
    SettleState × VerifyOutcome :=
  if payment.status ≠ "success" then (st, .paymentNotSuccessful)
  else if metadataCredits payment ≤ 0 then (st, .noCreditsInMetadata)
  else
    match st.payments payment.reference with
    | some e =>
      if e.processed then (st, .alreadyProcessed e.credits)
      else settleCore st userId payment (some e)
    | none => settleCore st userId payment none

/-! ## Projections and concrete fixtures used to evaluate the model -/

/-- The balance carried by a successful scans POST response. -/
def creditsAfter (res : Except ScanError (User × List VerificationRecord)) :
    Option ℤ :=
  match res with
  | .ok p => some p.1.credits
  | .error _ => none

/-- A user fixture with a given balance. -/
def exUser (uid : String) (c : ℤ) : User :=
  { clerkId := uid, email := uid ++ "@example.com", credits := c, plan := "trial" }

/-- A one-user store fixture. -/
def exUsers (uid : String) (c : ℤ) : Store User :=
  fun k => if k = uid then some (exUser uid c) else none

/-- A media descriptor fixture. -/
def exMedia (n : String) : BulkMedia :=
  { fileName := n, fileType := "image", url := none }

/-- A detector-result fixture carrying no numeric score and no model list
(`overallScore` 0). -/
def exResult : RDResult :=
  { score := none, status := "UNKNOWN", models := none }

/-- A bulk outcome fixture. -/
def exOutcome (n : String) (r : Option RDResult) : BulkOutcome :=
  { media := exMedia n, result := r }

/-- The constant fallback-id supply used in fixtures. -/
def exFresh : ℕ → String :=
  fun _ => "scan-fresh"

/-- The empty scans-list cache. -/
def emptyScansCache : Cache (List VerificationRecord) :=
  fun _ => none

/-- The empty single-result cache. -/
def emptyResultCache : Cache VerificationRecord :=
  fun _ => none

/-- A persisted-record fixture with no rational payload fields. -/
def exRecord (uid sid : String) : VerificationRecord :=
  { userId := uid, scanId := sid, fileName := "f", fileType := "image",
    status := .SUSPICIOUS, confidenceScore := 0, modelsUsed := [],
    imageUrl := none, rdPayload := exResult, features := [] }

/-- A scans-list cache fixture holding one entry for user `w8` written at
time 0. -/
def exScansCacheW8 : Cache (List VerificationRecord) :=
  fun k => if k = "scans:w8" then some ⟨[], 0⟩ else none

/-- A three-item batch whose middle item failed verification. -/
def exBatchC5 : List BulkOutcome :=
  [exOutcome "a" (some exResult), exOutcome "b" none,
   exOutcome "c" (some exResult)]

/-- A two-item batch in which both items produced results. -/
def exBatchC2 : List BulkOutcome :=
  [exOutcome "a" (some exResult), exOutcome "b" (some exResult)]

/-- A three-item batch in which all items produced results. -/
def exBatchC3 : List BulkOutcome :=
  [exOutcome "a" (some exResult), exOutcome "b" (some exResult),
   exOutcome "c" (some exResult)]

/-- A provider verify-payload fixture: success status, reference `ref1`,
50 metadata credits owned by `owner`. -/
def exPayment (owner : String) : PaystackPayment :=
  { status := "success", reference := "ref1", amount := some 500,
    currency := some "USD",
    metadata := some { credits := some 50, clerkId := some owner } }

/-- A processed payment-record fixture for `ref1`, 50 credits, owned by
`owner`. -/
def exPaymentRecord (owner : String) : PaymentRecord :=
  { reference := "ref1", clerkId := owner, email := owner ++ "@example.com",
    amount := 500, currency := "USD", credits := 50, status := "success",
    processed := true, raw := none }

/-- A settlement-state fixture: one user `uid` with balance `c`, one payment
record under `ref1` when `pr` is supplied. -/
def exSettleState (uid : String) (c : ℤ) (pr : Option PaymentRecord) :
    SettleState :=
  { users := exUsers uid c
    payments := fun k => if k = "ref1" then pr else none }

/-! ## Theorems -/

theorem floor_half_rat : ⌊(1 / 2 : ℚ)⌋ = 0 := by
  rw [Int.floor_eq_zero_iff]
  constructor <;> norm_num

/-- C6: for every (providerStatus, overallScore) pair, the persisted
classification equals the priority mapping — authentic yields AUTHENTIC;
manipulated with score ≥ 0.5 yields DEEPFAKE (including the boundary 0.5);
manipulated with score < 0.5 yields SUSPICIOUS; any other status yields
SUSPICIOUS — and every record built by the save paths carries exactly that
classification. -/
theorem C6_verdict_mapping :
    (∀ (s : String) (x : ℚ), mappedStatus s x = specVerdict s x) ∧
    (∀ (uid fid : String) (m : BulkMedia) (r : RDResult),
      (buildRecord uid fid m r).status = specVerdict r.status (overallScore r)) ∧
    mappedStatus "MANIPULATED" (1 / 2) = ScanStatus.DEEPFAKE := by
  have key : ∀ (s : String) (x : ℚ), mappedStatus s x = specVerdict s x := by
    intro s x
    by_cases h1 : s = "AUTHENTIC" <;> by_cases h2 : s = "MANIPULATED" <;>
      by_cases h3 : (1 : ℚ) / 2 ≤ x <;>
      simp [mappedStatus, specVerdict, h1, h2, h3, ge_iff_le]
  refine ⟨key, ?_, ?_⟩
  · intro uid fid m r
    have : (buildRecord uid fid m r).status = mappedStatus r.status (overallScore r) := rfl
    rw [this, key]
  · simp [mappedStatus]

/-- C7: for every overallScore in [0,1] the persisted confidenceScore is
`round(overallScore × 100)` (JavaScript `Math.round`, half rounded up) and
lies in 0–100; every built record carries exactly that value; a result with
no numeric score is read as score 0 and confidence 0; the .x5 boundaries
round up (0.005 → 1, 0.015 → 2). -/
theorem C7_confidence_rounding :
    (∀ x : ℚ, 0 ≤ x → x ≤ 1 →
      confidenceScore x = round (x * 100) ∧
      0 ≤ confidenceScore x ∧ confidenceScore x ≤ 100) ∧
    (∀ (uid fid : String) (m : BulkMedia) (r : RDResult),
      (buildRecord uid fid m r).confidenceScore = confidenceScore (overallScore r)) ∧
    (∀ r : RDResult, r.score = none →
      overallScore r = 0 ∧ confidenceScore (overallScore r) = 0) ∧
    confidenceScore (1 / 200) = 1 ∧ confidenceScore (3 / 200) = 2 := by
  have hzero : confidenceScore 0 = 0 := by
    have h : (0 : ℚ) * 100 + 1 / 2 = 1 / 2 := by norm_num
    simp only [confidenceScore, mathRound, h]
    exact floor_half_rat
  refine ⟨?_, ?_, ?_, ?_, ?_⟩
  · intro x hx0 hx1
    refine ⟨by rw [confidenceScore, mathRound, round_eq], ?_, ?_⟩
    · exact Int.floor_nonneg.mpr (by linarith)
    · exact Int.floor_le_iff.mpr (by push_cast; linarith)
  · intro uid fid m r
    rfl
  · intro r h
    have h0 : overallScore r = 0 := by simp [overallScore, h]
    exact ⟨h0, by rw [h0, hzero]⟩
  · have h : (1 / 200 : ℚ) * 100 + 1 / 2 = 1 := by norm_num
    simp only [confidenceScore, mathRound, h]
    exact Int.floor_one
  · have h : (3 / 200 : ℚ) * 100 + 1 / 2 = 2 := by norm_num
    simp only [confidenceScore, mathRound, h]
    exact_mod_cast Int.floor_intCast (α := ℚ) 2

/-- Witness for C7 at the concrete score 1. -/
theorem C7_confidence_rounding_witness :
    confidenceScore 1 = round ((1 : ℚ) * 100) ∧
    0 ≤ confidenceScore 1 ∧ confidenceScore 1 ≤ 100 :=
  C7_confidence_rounding.1 1 (by simp) (by simp)

theorem saveLoopAux_snd_eq_length (userId : String) (fresh : ℕ → String) :
    ∀ (i : ℕ) (os : List BulkOutcome),
      (saveLoopAux userId fresh i os).2 = (saveLoopAux userId fresh i os).1.length := by
  intro i os
  induction os generalizing i with
  | nil => rfl
  | cons o rest ih =>
    cases h : o.result <;> simp [saveLoopAux, h, ih]

theorem saveLoopAux_fst_length (userId : String) (fresh : ℕ → String) :
    ∀ (i : ℕ) (os : List BulkOutcome),
      (saveLoopAux userId fresh i os).1.length =
        os.countP (fun o => o.result.isSome) := by
  intro i os
  induction os generalizing i with
  | nil => rfl
  | cons o rest ih =>
    cases h : o.result <;> simp [saveLoopAux, h, ih, List.countP_cons]

theorem countP_some_add_countP_none (os : List BulkOutcome) :
    os.countP (fun o => o.result.isSome) +
      os.countP (fun o => o.result.isNone) = os.length := by
  induction os with
  | nil => rfl
  | cons o rest ih =>
    cases h : o.result <;> simp [List.countP_cons, h] <;> omega

/-- C5: the batch debit always equals the count of persisted results, and a
batch in which exactly one item produced no detector result persists exactly
N−1 records and debits exactly N−1 credits from the submitting user. -/
theorem C5_batch_partial_failure :
    (∀ (userId : String) (fresh : ℕ → String) (os : List BulkOutcome),
      (saveLoop userId fresh os).2 = (saveLoop userId fresh os).1.length) ∧
    (∀ (users : Store User) (cache : Cache (List VerificationRecord))
       (userId : String) (fresh : ℕ → String) (u : User) (os : List BulkOutcome),
      users userId = some u → 0 < u.credits →
      os.countP (fun o => o.result.isNone) = 1 →
      (saveLoop userId fresh os).1.length = os.length - 1 ∧
      (saveLoop userId fresh os).2 = os.length - 1 ∧
      creditsAfter (scansPost users cache userId fresh (.bulk os)).2.2 =
        some (u.credits - (os.length - 1 : ℕ))) := by
  constructor
  · intro userId fresh os
    exact saveLoopAux_snd_eq_length userId fresh 0 os
  · intro users cache userId fresh u os hu hc hone
    have hsum := countP_some_add_countP_none os
    have hlen : (saveLoop userId fresh os).1.length = os.length - 1 := by
      rw [saveLoop, saveLoopAux_fst_length]
      omega
    have hsnd : (saveLoop userId fresh os).2 = os.length - 1 := by
      rw [saveLoop, saveLoopAux_snd_eq_length, saveLoopAux_fst_length]
      omega
    refine ⟨hlen, hsnd, ?_⟩
    have hc1 : ¬ u.credits ≤ 0 := not_le.mpr hc
    simp [scansPost, creditsAfter, hu, hc1, hsnd]

/-- Witness for C5 on a concrete three-item batch with one failed item and a
user holding 5 credits. -/
theorem C5_batch_partial_failure_witness :
    (saveLoop "u5" exFresh exBatchC5).1.length = exBatchC5.length - 1 ∧
    (saveLoop "u5" exFresh exBatchC5).2 = exBatchC5.length - 1 ∧
    creditsAfter
        (scansPost (exUsers "u5" 5) emptyScansCache "u5" exFresh
          (.bulk exBatchC5)).2.2 =
      some ((5 : ℤ) - (exBatchC5.length - 1 : ℕ)) :=
  C5_batch_partial_failure.2 (exUsers "u5" 5) emptyScansCache "u5" exFresh
    (exUser "u5" 5) exBatchC5 rfl (by decide) (by decide)

theorem settleCore_mismatch (st : SettleState) (uid : String)
    (p : PaystackPayment) (ex : Option PaymentRecord)
    (hm : metadataMismatch p uid = true) :
    settleCore st uid p ex = (st, .metadataMismatchError) := by
  unfold settleCore
  rw [if_pos hm]

theorem settleCore_ok (st : SettleState) (uid : String) (p : PaystackPayment)
    (ex : Option PaymentRecord) (u : User)
    (hm : metadataMismatch p uid = false) (hu : st.users uid = some u) :
    settleCore st uid p ex =
      ({ users := storeSet st.users uid
           { u with credits := u.credits + metadataCredits p }
         payments := storeSet st.payments p.reference
           (settledRecord uid p ex u) },
        .settled (u.credits + metadataCredits p)) := by
  unfold settleCore
  rw [if_neg (by simp [hm]), hu]

theorem settleCore_settled_inv (st : SettleState) (uid : String)
    (p : PaystackPayment) (ex : Option PaymentRecord) (u : User) (c : ℤ)
    (hu : st.users uid = some u)
    (h : (settleCore st uid p ex).2 = .settled c) :
    c = u.credits + metadataCredits p := by
  by_cases hm : metadataMismatch p uid = true
  · rw [settleCore_mismatch st uid p ex hm] at h
    simp at h
  · rw [settleCore_ok st uid p ex u (by simpa using hm) hu] at h
    simp at h
    omega

theorem verifyPost_processed (st : SettleState) (uid : String)
    (p : PaystackPayment) (e : PaymentRecord) (hs : p.status = "success")
    (hc : 0 < metadataCredits p) (hex : st.payments p.reference = some e)
    (hp : e.processed = true) :
    verifyPost st uid p = (st, .alreadyProcessed e.credits) := by
  unfold verifyPost
  rw [if_neg (by simp [hs]), if_neg (not_le.mpr hc), hex]
  simp [hp]

theorem verifyPost_fresh (st : SettleState) (uid : String)
    (p : PaystackPayment) (hs : p.status = "success")
    (hc : 0 < metadataCredits p) (hex : st.payments p.reference = none) :
    verifyPost st uid p = settleCore st uid p none := by
  unfold verifyPost
  rw [if_neg (by simp [hs]), if_neg (not_le.mpr hc), hex]

theorem verifyPost_unprocessed (st : SettleState) (uid : String)
    (p : PaystackPayment) (e : PaymentRecord) (hs : p.status = "success")
    (hc : 0 < metadataCredits p) (hex : st.payments p.reference = some e)
    (hp : e.processed = false) :
    verifyPost st uid p = settleCore st uid p (some e) := by
  unfold verifyPost
  rw [if_neg (by simp [hs]), if_neg (not_le.mpr hc), hex]
  simp [hp]

theorem verifyPost_settled_inv (st : SettleState) (uid : String)
    (p : PaystackPayment) (u : User) (c : ℤ) (hu : st.users uid = some u)
    (h : (verifyPost st uid p).2 = .settled c) :
    0 < metadataCredits p ∧ c = u.credits + metadataCredits p := by
  by_cases hs : p.status = "success"
  · by_cases hc : metadataCredits p ≤ 0
    · unfold verifyPost at h
      rw [if_neg (by simp [hs]), if_pos hc] at h
      simp at h
    · have hc1 : 0 < metadataCredits p := by omega
      refine ⟨hc1, ?_⟩
      cases hex : st.payments p.reference with
      | none =>
        rw [verifyPost_fresh st uid p hs hc1 hex] at h
        exact settleCore_settled_inv st uid p none u c hu h
      | some e =>
        by_cases hp : e.processed = true
        · rw [verifyPost_processed st uid p e hs hc1 hex hp] at h
          simp at h
        · rw [verifyPost_unprocessed st uid p e hs hc1 hex
            (by simpa using hp)] at h
          exact settleCore_settled_inv st uid p (some e) u c hu h
  · unfold verifyPost at h
    rw [if_pos hs] at h
    simp at h

theorem trialPost_ok (users : Store User) (uid : String) (u : User)
    (hu : users uid = some u) :
    trialPost users uid =
      (storeSet users uid
         { u with credits := max u.credits TRIAL_CREDITS, plan := "trial" },
       .ok (max u.credits TRIAL_CREDITS)) := by
  unfold trialPost
  rw [hu]
  have hmax :
      (if u.credits = 0 ∨ u.credits < TRIAL_CREDITS then TRIAL_CREDITS
        else u.credits) = max u.credits TRIAL_CREDITS := by
    simp only [TRIAL_CREDITS]
    split_ifs with h <;> omega
  simp only [hmax]

/-- C2 counterexample: a user holding 1 credit submits a two-item batch in
which both items produce results; the bulk debit drives the balance to −1,
so the non-negativity invariant fails on the batch debit. -/
theorem C2_counterexample :
    creditsAfter
        (scansPost (exUsers "u2" 1) emptyScansCache "u2" exFresh
          (.bulk exBatchC2)).2.2 = some (-1) ∧
    (-1 : ℤ) < 0 := by
  constructor
  · rfl
  · decide

/-- C2 amended: the trial grant and the settlement credit always leave a
non-negative balance (from a non-negative start), and the single-scan debit
does so thanks to the `credits > 0` pre-check; the batch debit preserves
non-negativity only when the starting balance covers the persisted-result
count — with fewer credits than successfully verified items the balance goes
negative, as `C2_counterexample` exhibits. -/
theorem C2_credit_invariant_amended :
    (∀ (users : Store User) (uid : String) (c : ℤ),
      (trialPost users uid).2 = .ok c → 0 ≤ c) ∧
    (∀ (st : SettleState) (uid : String) (p : PaystackPayment) (u : User)
       (c : ℤ),
      st.users uid = some u → 0 ≤ u.credits →
      (verifyPost st uid p).2 = .settled c → 0 ≤ c) ∧
    (∀ (users : Store User) (cache : Cache (List VerificationRecord))
       (uid : String) (fresh : ℕ → String) (m : BulkMedia) (r : RDResult)
       (c : ℤ),
      creditsAfter
          (scansPost users cache uid fresh (.single m (some r))).2.2 = some c →
      0 ≤ c) ∧
    (∀ (users : Store User) (cache : Cache (List VerificationRecord))
       (uid : String) (fresh : ℕ → String) (u : User) (os : List BulkOutcome)
       (c : ℤ),
      users uid = some u →
      ((saveLoop uid fresh os).2 : ℤ) ≤ u.credits →
      creditsAfter (scansPost users cache uid fresh (.bulk os)).2.2 = some c →
      0 ≤ c) := by
  refine ⟨?_, ?_, ?_, ?_⟩
  · intro users uid c h
    cases hu : users uid with
    | none =>
      unfold trialPost at h
      rw [hu] at h
      simp at h
    | some u =>
      rw [trialPost_ok users uid u hu] at h
      simp only [TRIAL_CREDITS] at h
      simp at h
      omega
  · intro st uid p u c hu hc h
    have := verifyPost_settled_inv st uid p u c hu h
    omega
  · intro users cache uid fresh m r c h
    unfold scansPost at h
    cases hu : users uid with
    | none =>
      rw [hu] at h
      simp [creditsAfter] at h
    | some u =>
      rw [hu] at h
      by_cases hcr : u.credits ≤ 0
      · simp [creditsAfter, hcr] at h
      · simp [creditsAfter, hcr] at h
        omega
  · intro users cache uid fresh u os c hu hcover h
    unfold scansPost at h
    rw [hu] at h
    by_cases hcr : u.credits ≤ 0
    · simp [creditsAfter, hcr] at h
    · simp [creditsAfter, hcr] at h
      omega

/-- Witness for C2: the single-scan debit on a user holding 3 credits lands
at 2 credits, a non-negative balance. -/
theorem C2_credit_invariant_amended_witness :
    creditsAfter
        (scansPost (exUsers "w2" 3) emptyScansCache "w2" exFresh
          (.single (exMedia "m") (some exResult))).2.2 = some 2 ∧
    (0 : ℤ) ≤ 2 :=
  ⟨rfl,
    C2_credit_invariant_amended.2.2.1 (exUsers "w2" 3) emptyScansCache "w2"
      exFresh (exMedia "m") exResult 2 rfl⟩

/-- C3 counterexample: a user holding 2 credits submits a three-item batch in
which all items produce results (amount to debit = 3 > balance = 2); the
operation does not fail with InsufficientCredits — it succeeds and debits to
−1, so neither the `balance < amount` failure condition nor the
unchanged-balance guarantee holds. -/
theorem C3_counterexample :
    creditsAfter
        (scansPost (exUsers "u3" 2) emptyScansCache "u3" exFresh
          (.bulk exBatchC3)).2.2 = some (-1) ∧
    (2 : ℤ) < 3 := by
  constructor
  · rfl
  · decide

/-- C3 amended: the debit fails with InsufficientCredits — leaving the user
store untouched — exactly when the pre-checked balance is ≤ 0 (or the user
record is absent), not when it is below the amount; on a positive balance
the bulk debit subtracts exactly the persisted-result count and the single
debit subtracts exactly 1, storing and returning the new balance, which may
be negative. -/
theorem C3_try_debit_amended :
    (∀ (users : Store User) (cache : Cache (List VerificationRecord))
       (uid : String) (fresh : ℕ → String) (req : ScanRequest) (u : User),
      users uid = some u → u.credits ≤ 0 →
      (scansPost users cache uid fresh req).2.2 = .error .InsufficientCredits ∧
      (scansPost users cache uid fresh req).1 = users) ∧
    (∀ (users : Store User) (cache : Cache (List VerificationRecord))
       (uid : String) (fresh : ℕ → String),
      users uid = none →
      (scansPost users cache uid fresh (.bulk [])).2.2 =
          .error .InsufficientCredits ∧
      ∀ req, (scansPost users cache uid fresh req).1 = users) ∧
    (∀ (users : Store User) (cache : Cache (List VerificationRecord))
       (uid : String) (fresh : ℕ → String) (u : User) (os : List BulkOutcome),
      users uid = some u → 0 < u.credits →
      creditsAfter (scansPost users cache uid fresh (.bulk os)).2.2 =
        some (u.credits - ((saveLoop uid fresh os).2 : ℤ)) ∧
      (scansPost users cache uid fresh (.bulk os)).1 uid =
        some { u with credits := u.credits - ((saveLoop uid fresh os).2 : ℤ) }) ∧
    (∀ (users : Store User) (cache : Cache (List VerificationRecord))
       (uid : String) (fresh : ℕ → String) (u : User) (m : BulkMedia)
       (r : RDResult),
      users uid = some u → 0 < u.credits →
      creditsAfter
          (scansPost users cache uid fresh (.single m (some r))).2.2 =
        some (u.credits - 1) ∧
      (scansPost users cache uid fresh (.single m (some r))).1 uid =
        some { u with credits := u.credits - 1 }) := by
  refine ⟨?_, ?_, ?_, ?_⟩
  · intro users cache uid fresh req u hu hcr
    unfold scansPost
    rw [hu]
    simp [hcr]
  · intro users cache uid fresh hu
    refine ⟨?_, ?_⟩
    · unfold scansPost
      rw [hu]
    · intro req
      unfold scansPost
      rw [hu]
  · intro users cache uid fresh u os hu hcr
    have hcr1 : ¬ u.credits ≤ 0 := not_le.mpr hcr
    unfold scansPost
    rw [hu]
    simp [creditsAfter, hcr1, storeSet]
  · intro users cache uid fresh u m r hu hcr
    have hcr1 : ¬ u.credits ≤ 0 := not_le.mpr hcr
    unfold scansPost
    rw [hu]
    simp [creditsAfter, hcr1, storeSet]

/-- Witness for C3: a user holding 1 credit and a request on an empty-balance
account — the pre-check fires at balance 0 and leaves the store untouched;
and on a 3-credit account the single debit stores balance 2. -/
theorem C3_try_debit_amended_witness :
    ((scansPost (exUsers "w3" 0) emptyScansCache "w3" exFresh
        (.bulk exBatchC3)).2.2 = .error .InsufficientCredits ∧
      (scansPost (exUsers "w3" 0) emptyScansCache "w3" exFresh
        (.bulk exBatchC3)).1 = exUsers "w3" 0) ∧
    (creditsAfter
        (scansPost (exUsers "w3b" 3) emptyScansCache "w3b" exFresh
          (.single (exMedia "m") (some exResult))).2.2 = some 2 ∧
      (scansPost (exUsers "w3b" 3) emptyScansCache "w3b" exFresh
          (.single (exMedia "m") (some exResult))).1 "w3b" =
        some { exUser "w3b" 3 with credits := 2 }) :=
  ⟨C3_try_debit_amended.1 (exUsers "w3" 0) emptyScansCache "w3" exFresh
      (.bulk exBatchC3) (exUser "w3" 0) rfl (by decide),
    C3_try_debit_amended.2.2.2 (exUsers "w3b" 3) emptyScansCache "w3b" exFresh
      (exUser "w3b" 3) (exMedia "m") exResult rfl (by decide)⟩

/-- C1 counterexample: caller `mallory` settles reference `ref1`, whose
provider metadata names owner `alice` and for which a `processed=true`
Payment record exists; the handler returns the idempotency short-circuit
(`alreadyProcessed 50`), not the metadata-mismatch error — so the mismatch
does not "always fail with a metadata-mismatch error regardless of processed
state" (no credit is applied, though). -/
theorem C1_counterexample :
    metadataMismatch (exPayment "alice") "mallory" = true ∧
    (verifyPost (exSettleState "mallory" 0 (some (exPaymentRecord "alice")))
        "mallory" (exPayment "alice")).2 = .alreadyProcessed 50 ∧
    (verifyPost (exSettleState "mallory" 0 (some (exPaymentRecord "alice")))
        "mallory" (exPayment "alice")).2 ≠ .metadataMismatchError ∧
    (verifyPost (exSettleState "mallory" 0 (some (exPaymentRecord "alice")))
        "mallory" (exPayment "alice")).1.users "mallory" =
      (exSettleState "mallory" 0 (some (exPaymentRecord "alice"))).users
        "mallory" :=
  ⟨by decide, rfl, by decide, rfl⟩

/-- C1 amended: a settlement whose metadata owner differs from the caller
never mutates state and never applies credit; it fails with the
metadata-mismatch error exactly when no `processed=true` record exists for
the reference (none, or one with `processed=false`); when a `processed=true`
record exists, the idempotency short-circuit answers first, returning the
previously recorded credit amount instead of the mismatch error. -/
theorem C1_metadata_mismatch_amended :
    ∀ (st : SettleState) (uid : String) (p : PaystackPayment),
      p.status = "success" → 0 < metadataCredits p →
      metadataMismatch p uid = true →
      (st.payments p.reference = none →
        verifyPost st uid p = (st, .metadataMismatchError)) ∧
      (∀ e, st.payments p.reference = some e → e.processed = false →
        verifyPost st uid p = (st, .metadataMismatchError)) ∧
      (∀ e, st.payments p.reference = some e → e.processed = true →
        verifyPost st uid p = (st, .alreadyProcessed e.credits)) := by
  intro st uid p hs hc hm
  refine ⟨?_, ?_, ?_⟩
  · intro hex
    rw [verifyPost_fresh st uid p hs hc hex]
    exact settleCore_mismatch st uid p none hm
  · intro e hex hp
    rw [verifyPost_unprocessed st uid p e hs hc hex hp]
    exact settleCore_mismatch st uid p (some e) hm
  · intro e hex hp
    exact verifyPost_processed st uid p e hs hc hex hp

/-- Witness for C1 amended: with no record for the reference, the mismatched
caller `wm` is rejected with the metadata-mismatch error and the state is
unchanged. -/
theorem C1_metadata_mismatch_amended_witness :
    verifyPost (exSettleState "wm" 0 none) "wm" (exPayment "alice") =
      (exSettleState "wm" 0 none, .metadataMismatchError) :=
  (C1_metadata_mismatch_amended (exSettleState "wm" 0 none) "wm"
      (exPayment "alice") rfl (by decide) (by decide)).1 rfl

/-- C4: settling a fresh reference as its owner applies the credit once and
records `processed=true` with the credited amount; replaying the identical
settlement returns the recorded credits-applied value and the state —
users and payments — is exactly the state after the first call (no second
mutation), so two settlements have the credit effect of one. -/
theorem C4_settlement_idempotent :
    ∀ (st : SettleState) (uid : String) (p : PaystackPayment) (u : User),
      p.status = "success" → 0 < metadataCredits p →
      metadataClerkId p = some uid →
      st.users uid = some u → st.payments p.reference = none →
      (verifyPost st uid p).2 = .settled (u.credits + metadataCredits p) ∧
      (verifyPost st uid p).1.users uid =
        some { u with credits := u.credits + metadataCredits p } ∧
      (verifyPost st uid p).1.payments p.reference =
        some (settledRecord uid p none u) ∧
      (settledRecord uid p none u).processed = true ∧
      (settledRecord uid p none u).credits = metadataCredits p ∧
      verifyPost (verifyPost st uid p).1 uid p =
        ((verifyPost st uid p).1, .alreadyProcessed (metadataCredits p)) := by
  intro st uid p u hs hc hown hu hex
  have hmm : metadataMismatch p uid = false := by
    unfold metadataMismatch
    rw [hown]
    simp
  have h1 : verifyPost st uid p =
      ({ users := storeSet st.users uid
           { u with credits := u.credits + metadataCredits p }
         payments := storeSet st.payments p.reference
           (settledRecord uid p none u) },
        .settled (u.credits + metadataCredits p)) := by
    rw [verifyPost_fresh st uid p hs hc hex, settleCore_ok st uid p none u hmm hu]
  have hex1 : (verifyPost st uid p).1.payments p.reference =
      some (settledRecord uid p none u) := by
    rw [h1]
    simp [storeSet]
  refine ⟨by rw [h1], ?_, hex1, rfl, rfl, ?_⟩
  · rw [h1]
    simp [storeSet]
  · have h2 := verifyPost_processed (verifyPost st uid p).1 uid p
      (settledRecord uid p none u) hs hc hex1 rfl
    rw [h2]
    rfl

/-- Witness for C4: owner `wa` with 10 credits settles `ref1` carrying 50
metadata credits — the first call settles at balance 60, the replay returns
`alreadyProcessed 50` on the unchanged state. -/
theorem C4_settlement_idempotent_witness :
    (verifyPost (exSettleState "wa" 10 none) "wa" (exPayment "wa")).2 =
      .settled 60 ∧
    verifyPost (verifyPost (exSettleState "wa" 10 none) "wa"
        (exPayment "wa")).1 "wa" (exPayment "wa") =
      ((verifyPost (exSettleState "wa" 10 none) "wa" (exPayment "wa")).1,
        .alreadyProcessed 50) :=
  ⟨(C4_settlement_idempotent (exSettleState "wa" 10 none) "wa"
      (exPayment "wa") (exUser "wa" 10) rfl (by decide) rfl rfl rfl).1,
    (C4_settlement_idempotent (exSettleState "wa" 10 none) "wa"
      (exPayment "wa") (exUser "wa" 10) rfl (by decide) rfl rfl rfl).2.2.2.2.2⟩

/-- C10: for every existing user the trial grant responds with and stores
`max(previous balance, TRIAL_CREDITS)` (TRIAL_CREDITS = 5) and sets the plan
to trial; the balance never decreases, and running the operation twice
leaves exactly the state — and response — of running it once. -/
theorem C10_trial_grant :
    TRIAL_CREDITS = 5 ∧
    ∀ (users : Store User) (uid : String) (u : User),
      users uid = some u →
      (trialPost users uid).2 = .ok (max u.credits TRIAL_CREDITS) ∧
      (trialPost users uid).1 uid =
        some { u with credits := max u.credits TRIAL_CREDITS, plan := "trial" } ∧
      u.credits ≤ max u.credits TRIAL_CREDITS ∧
      (trialPost (trialPost users uid).1 uid).1 = (trialPost users uid).1 ∧
      (trialPost (trialPost users uid).1 uid).2 = (trialPost users uid).2 := by
  refine ⟨rfl, ?_⟩
  intro users uid u hu
  have h1 := trialPost_ok users uid u hu
  have hu1 : (trialPost users uid).1 uid =
      some { u with credits := max u.credits TRIAL_CREDITS, plan := "trial" } := by
    rw [h1]
    simp [storeSet]
  have h2 := trialPost_ok (trialPost users uid).1 uid
    { u with credits := max u.credits TRIAL_CREDITS, plan := "trial" } hu1
  have hmax2 : max (max u.credits TRIAL_CREDITS) TRIAL_CREDITS =
      max u.credits TRIAL_CREDITS := by
    simp only [TRIAL_CREDITS]
    omega
  have hrec :
      ({ { u with credits := max u.credits TRIAL_CREDITS, plan := "trial" } with
          credits := max (max u.credits TRIAL_CREDITS) TRIAL_CREDITS,
          plan := "trial" } : User) =
        { u with credits := max u.credits TRIAL_CREDITS, plan := "trial" } := by
    simp [hmax2]
  refine ⟨by rw [h1], hu1, le_max_left _ _, ?_, ?_⟩
  · rw [h2]
    simp only [hrec]
    funext k
    by_cases hk : k = uid
    · subst hk
      simp [storeSet, hu1]
    · simp [storeSet, hk]
  · rw [h2, h1]
    simp [hmax2]

/-- Witness for C10 with a user holding 7 credits: the trial grant keeps the
balance at 7 (= max(7,5)) and the second run changes nothing. -/
theorem C10_trial_grant_witness :
    (trialPost (exUsers "w10" 7) "w10").2 = .ok 7 ∧
    (trialPost (trialPost (exUsers "w10" 7) "w10").1 "w10").1 =
      (trialPost (exUsers "w10" 7) "w10").1 :=
  ⟨(C10_trial_grant.2 (exUsers "w10" 7) "w10" (exUser "w10" 7) rfl).1,
    (C10_trial_grant.2 (exUsers "w10" 7) "w10" (exUser "w10" 7) rfl).2.2.2.1⟩

theorem resultsGet_hit (cache : Cache VerificationRecord) (uid id : String)
    (now : ℤ) (db : List VerificationRecord)
    (cached : CacheEntry VerificationRecord)
    (hc : cache (uid ++ ":" ++ id) = some cached)
    (ht : now - cached.timestamp < RESULT_CACHE_TTL) :
    resultsGet cache uid id now db = (cache, .ok cached.data) := by
  unfold resultsGet
  rw [hc]
  simp [ht]

theorem resultsGet_stale (cache : Cache VerificationRecord) (uid id : String)
    (now : ℤ) (db : List VerificationRecord)
    (cached : CacheEntry VerificationRecord)
    (hc : cache (uid ++ ":" ++ id) = some cached)
    (ht : ¬ now - cached.timestamp < RESULT_CACHE_TTL) :
    resultsGet cache uid id now db =
      (match resultsFindOne db id uid with
       | none => (cache, .error .NotFound)
       | some r => (cacheSet cache (uid ++ ":" ++ id) ⟨r, now⟩, .ok r)) := by
  unfold resultsGet
  rw [hc]
  simp [ht]

theorem resultsGet_nocache (cache : Cache VerificationRecord) (uid id : String)
    (now : ℤ) (db : List VerificationRecord)
    (hc : cache (uid ++ ":" ++ id) = none) :
    resultsGet cache uid id now db =
      (match resultsFindOne db id uid with
       | none => (cache, .error .NotFound)
       | some r => (cacheSet cache (uid ++ ":" ++ id) ⟨r, now⟩, .ok r)) := by
  unfold resultsGet
  rw [hc]

theorem findOneAndDelete_some (p : VerificationRecord → Bool) :
    ∀ (db : List VerificationRecord) (r : VerificationRecord),
      (findOneAndDelete p db).1 = some r → p r = true ∧ r ∈ db := by
  intro db
  induction db with
  | nil =>
    intro r h
    simp [findOneAndDelete] at h
  | cons x rest ih =>
    intro r h
    by_cases hp : p x
    · simp [findOneAndDelete, hp] at h
      subst h
      exact ⟨hp, List.mem_cons_self x rest⟩
    · simp [findOneAndDelete, hp] at h
      rcases ih r h with ⟨h1, h2⟩
      exact ⟨h1, List.mem_cons_of_mem x h2⟩

theorem findOneAndDelete_none (p : VerificationRecord → Bool) :
    ∀ db : List VerificationRecord,
      (findOneAndDelete p db).1 = none → (findOneAndDelete p db).2 = db := by
  intro db
  induction db with
  | nil => intro _; rfl
  | cons x rest ih =>
    intro h
    by_cases hp : p x
    · simp [findOneAndDelete, hp] at h
    · simp [findOneAndDelete, hp] at h ⊢
      exact ih h

theorem findOneAndDelete_keeps (p : VerificationRecord → Bool) :
    ∀ (db : List VerificationRecord) (x : VerificationRecord),
      x ∈ db → p x = false → x ∈ (findOneAndDelete p db).2 := by
  intro db
  induction db with
  | nil =>
    intro x hx _
    simp at hx
  | cons y rest ih =>
    intro x hx hpx
    by_cases hp : p y
    · simp [findOneAndDelete, hp]
      rcases List.mem_cons.mp hx with h | h
      · subst h
        rw [hp] at hpx
        cases hpx
      · exact h
    · simp [findOneAndDelete, hp]
      rcases List.mem_cons.mp hx with h | h
      · exact Or.inl h
      · exact Or.inr (ih x h hpx)

/-- C9: the single-result interface is ownership-scoped — the GET lookup
only ever matches a record whose userId is the caller (404 otherwise, and
any record served from the caller's well-keyed cache slot is the caller's),
and DELETE removes only a record owned by the caller: an unmatched filter
yields 404 with the collection unchanged, and no record of another user is
ever removed. -/
theorem C9_ownership_scoping :
    (∀ (db : List VerificationRecord) (id uid : String)
       (r : VerificationRecord),
      resultsFindOne db id uid = some r → r.userId = uid ∧ r.scanId = id) ∧
    (∀ (cache : Cache VerificationRecord) (uid id : String) (now : ℤ)
       (db : List VerificationRecord) (c2 : Cache VerificationRecord)
       (r : VerificationRecord),
      (∀ e, cache (uid ++ ":" ++ id) = some e → e.data.userId = uid) →
      resultsGet cache uid id now db = (c2, .ok r) → r.userId = uid) ∧
    (∀ (cache : Cache VerificationRecord) (uid id : String) (now : ℤ)
       (db : List VerificationRecord),
      cache (uid ++ ":" ++ id) = none → resultsFindOne db id uid = none →
      resultsGet cache uid id now db = (cache, .error .NotFound)) ∧
    (∀ (db : List VerificationRecord) (id uid : String)
       (r : VerificationRecord),
      (findOneAndDelete (fun x => x.scanId == id && x.userId == uid) db).1 =
          some r →
      r.userId = uid ∧ r.scanId = id ∧ r ∈ db) ∧
    (∀ (cache : Cache VerificationRecord) (uid id : String)
       (db : List VerificationRecord) (x : VerificationRecord),
      x ∈ db → x.userId ≠ uid →
      x ∈ (resultsDelete cache uid id db).2.1) ∧
    (∀ (cache : Cache VerificationRecord) (uid id : String)
       (db : List VerificationRecord),
      (findOneAndDelete (fun x => x.scanId == id && x.userId == uid) db).1 =
          none →
      (resultsDelete cache uid id db).2.1 = db ∧
      (resultsDelete cache uid id db).2.2 = .error .NotFound) := by
  have hfind : ∀ (db : List VerificationRecord) (id uid : String)
      (r : VerificationRecord),
      resultsFindOne db id uid = some r → r.userId = uid ∧ r.scanId = id := by
    intro db id uid r h
    unfold resultsFindOne at h
    have hp := List.find?_some h
    simp at hp
    exact ⟨hp.2, hp.1⟩
  refine ⟨hfind, ?_, ?_, ?_, ?_, ?_⟩
  · intro cache uid id now db c2 r hwf h
    cases hc : cache (uid ++ ":" ++ id) with
    | some cached =>
      by_cases ht : now - cached.timestamp < RESULT_CACHE_TTL
      · rw [resultsGet_hit cache uid id now db cached hc ht] at h
        have hd : cached.data = r := by
          have := congrArg Prod.snd h
          simpa using this
        rw [← hd]
        exact hwf cached hc
      · rw [resultsGet_stale cache uid id now db cached hc ht] at h
        cases hf : resultsFindOne db id uid with
        | none =>
          rw [hf] at h
          have := congrArg Prod.snd h
          simp at this
        | some r1 =>
          rw [hf] at h
          have hd : r1 = r := by
            have := congrArg Prod.snd h
            simpa using this
          rw [← hd]
          exact (hfind db id uid r1 hf).1
    | none =>
      rw [resultsGet_nocache cache uid id now db hc] at h
      cases hf : resultsFindOne db id uid with
      | none =>
        rw [hf] at h
        have := congrArg Prod.snd h
        simp at this
      | some r1 =>
        rw [hf] at h
        have hd : r1 = r := by
          have := congrArg Prod.snd h
          simpa using this
        rw [← hd]
        exact (hfind db id uid r1 hf).1
  · intro cache uid id now db hc hf
    rw [resultsGet_nocache cache uid id now db hc, hf]
  · intro db id uid r h
    rcases findOneAndDelete_some _ db r h with ⟨hp, hmem⟩
    simp at hp
    exact ⟨hp.2, hp.1, hmem⟩
  · intro cache uid id db x hx hne
    have hpx : (x.scanId == id && x.userId == uid) = false := by
      simp [hne]
    have hkeep := findOneAndDelete_keeps
      (fun y => y.scanId == id && y.userId == uid) db x hx hpx
    unfold resultsDelete
    cases hq : findOneAndDelete (fun y => y.scanId == id && y.userId == uid) db with
    | mk f s =>
      rw [hq] at hkeep
      simp at hkeep
      cases f <;> simpa using hkeep
  · intro cache uid id db h
    have h2 := findOneAndDelete_none
      (fun y => y.scanId == id && y.userId == uid) db h
    unfold resultsDelete
    cases hq : findOneAndDelete (fun y => y.scanId == id && y.userId == uid) db with
    | mk f s =>
      rw [hq] at h h2
      simp at h h2
      subst h
      simpa using h2

/-- Witness for C9: in a one-record collection owned by `u9`, the scoped
lookup returns that record, which indeed carries the caller's userId. -/
theorem C9_ownership_scoping_witness :
    resultsFindOne [exRecord "u9" "s1"] "s1" "u9" = some (exRecord "u9" "s1") ∧
    (exRecord "u9" "s1").userId = "u9" ∧ (exRecord "u9" "s1").scanId = "s1" :=
  ⟨rfl,
    C9_ownership_scoping.1 [exRecord "u9" "s1"] "s1" "u9" (exRecord "u9" "s1")
      rfl⟩

theorem scansGet_hit (cache : Cache (List VerificationRecord)) (uid : String)
    (now : ℤ) (db : List VerificationRecord)
    (cached : CacheEntry (List VerificationRecord))
    (hc : cache ("scans:" ++ uid) = some cached)
    (ht : now - cached.timestamp < SCANS_CACHE_TTL) :
    scansGet cache uid now db = (cache, cached.data) := by
  unfold scansGet
  rw [hc]
  simp [ht]

theorem scansGet_stale (cache : Cache (List VerificationRecord)) (uid : String)
    (now : ℤ) (db : List VerificationRecord)
    (cached : CacheEntry (List VerificationRecord))
    (hc : cache ("scans:" ++ uid) = some cached)
    (ht : ¬ now - cached.timestamp < SCANS_CACHE_TTL) :
    scansGet cache uid now db =
      (cacheSet cache ("scans:" ++ uid) ⟨queryScans db uid, now⟩,
        queryScans db uid) := by
  unfold scansGet
  rw [hc]
  simp [ht]

theorem scansGet_nocache (cache : Cache (List VerificationRecord))
    (uid : String) (now : ℤ) (db : List VerificationRecord)
    (hc : cache ("scans:" ++ uid) = none) :
    scansGet cache uid now db =
      (cacheSet cache ("scans:" ++ uid) ⟨queryScans db uid, now⟩,
        queryScans db uid) := by
  unfold scansGet
  rw [hc]

/-- C8: a cached read within the TTL returns the stored payload unchanged
(both the scans-list cache and the single-result cache); a read at or past
the TTL ignores the entry, recomputes from the store and re-caches; and a
successful scan creation deletes the caller's scans-list entry, so the next
list read is a miss that recomputes. -/
theorem C8_cache_ttl_invalidation :
    (∀ (cache : Cache (List VerificationRecord)) (uid : String) (now : ℤ)
       (db : List VerificationRecord)
       (e : CacheEntry (List VerificationRecord)),
      cache ("scans:" ++ uid) = some e →
      now - e.timestamp < SCANS_CACHE_TTL →
      scansGet cache uid now db = (cache, e.data)) ∧
    (∀ (cache : Cache (List VerificationRecord)) (uid : String) (now : ℤ)
       (db : List VerificationRecord)
       (e : CacheEntry (List VerificationRecord)),
      cache ("scans:" ++ uid) = some e →
      SCANS_CACHE_TTL ≤ now - e.timestamp →
      scansGet cache uid now db =
        (cacheSet cache ("scans:" ++ uid) ⟨queryScans db uid, now⟩,
          queryScans db uid)) ∧
    (∀ (cache : Cache VerificationRecord) (uid id : String) (now : ℤ)
       (db : List VerificationRecord) (e : CacheEntry VerificationRecord),
      cache (uid ++ ":" ++ id) = some e →
      now - e.timestamp < RESULT_CACHE_TTL →
      resultsGet cache uid id now db = (cache, .ok e.data)) ∧
    (∀ (cache : Cache VerificationRecord) (uid id : String) (now : ℤ)
       (db : List VerificationRecord) (e : CacheEntry VerificationRecord),
      cache (uid ++ ":" ++ id) = some e →
      RESULT_CACHE_TTL ≤ now - e.timestamp →
      resultsGet cache uid id now db =
        (match resultsFindOne db id uid with
         | none => (cache, .error .NotFound)
         | some r => (cacheSet cache (uid ++ ":" ++ id) ⟨r, now⟩, .ok r))) ∧
    (∀ (users : Store User) (cache : Cache (List VerificationRecord))
       (uid : String) (fresh : ℕ → String) (req : ScanRequest)
       (res : User × List VerificationRecord),
      (scansPost users cache uid fresh req).2.2 = .ok res →
      (scansPost users cache uid fresh req).2.1 ("scans:" ++ uid) = none ∧
      ∀ (now : ℤ) (db : List VerificationRecord),
        scansGet (scansPost users cache uid fresh req).2.1 uid now db =
          (cacheSet (scansPost users cache uid fresh req).2.1
            ("scans:" ++ uid) ⟨queryScans db uid, now⟩, queryScans db uid)) := by
  refine ⟨?_, ?_, ?_, ?_, ?_⟩
  · intro cache uid now db e hc ht
    exact scansGet_hit cache uid now db e hc ht
  · intro cache uid now db e hc ht
    exact scansGet_stale cache uid now db e hc (not_lt.mpr ht)
  · intro cache uid id now db e hc ht
    exact resultsGet_hit cache uid id now db e hc ht
  · intro cache uid id now db e hc ht
    exact resultsGet_stale cache uid id now db e hc (not_lt.mpr ht)
  · intro users cache uid fresh req res h
    have hnone : (scansPost users cache uid fresh req).2.1 ("scans:" ++ uid) =
        none := by
      unfold scansPost at h ⊢
      cases hu : users uid with
      | none =>
        rw [hu] at h
        simp at h
      | some u =>
        rw [hu] at h
        by_cases hcr : u.credits ≤ 0
        · simp [hcr] at h
        · cases req with
          | bulk os => simp [hcr, cacheDelete]
          | single m rr =>
            cases rr with
            | none => simp [hcr] at h
            | some r => simp [hcr, cacheDelete]
    exact ⟨hnone, fun now db =>
      scansGet_nocache (scansPost users cache uid fresh req).2.1 uid now db hnone⟩

/-- Witness for C8: a cache entry for user `w8` written at time 0 and read
at time 1 is a hit returning the stored (empty) payload. -/
theorem C8_cache_ttl_invalidation_witness :
    scansGet exScansCacheW8 "w8" 1 [] = (exScansCacheW8, []) :=
  C8_cache_ttl_invalidation.1 exScansCacheW8 "w8" 1 [] ⟨[], 0⟩ rfl (by decide)

end Gotham
